import Mathlib

/-!
Shallow embedding of the AgroPRO repository (two near-duplicate ESP8266
datalogger sketches, `src/Agro.cpp` and `src/AgroPRO.cpp`).

Modelling conventions:
* C `float` values are modelled as `Option ℚ`: `none` is NaN (the invalid
  marker), `some q` a finite value.  Float arithmetic inside the averaging
  loop is modelled with exact rational arithmetic.
* `time_t` epochs are natural numbers; `localtime_r` (with the configured
  GMT+8 offset and no DST) is modelled arithmetically.
* The per-iteration body of `loop()` is modelled as a step function from
  (tick inputs, scheduler state, cloud-variable state) to a result record
  that also reports which actions fired during the tick.  External
  collaborators (Arduino Cloud sync, NTP resync timer, serial logging,
  `delay`) carry no modelled state.
* `uint8_t` arithmetic wraps mod 256 where the source computes a `uint8_t`
  result that could exceed 255 (`Agro.cpp`s `min<uint8_t>(validSamples+1,..)`).
-/

/-- A sensor reading / buffer slot: `none` models NaN, the invalid marker. -/
abbrev Reading := Option ℚ

/-! Constants of `src/Agro.cpp`. -/

/-- Agro.cpp: `constexpr long GMT_OFFSET = 8*3600`. -/
def GMT_OFFSET : ℕ := 8 * 3600

/-- Agro.cpp: `constexpr long MIN_EPOCH = 946684800L` (2000-01-01). -/
def MIN_EPOCH : ℕ := 946684800

/-- Agro.cpp: `constexpr uint8_t SAMPLES_HR = 6` (ring capacity). -/
def SAMPLES_HR : ℕ := 6

/-- Agro.cpp: `constexpr uint8_t SAMPLE_STEP = 10` (sample every 10 min). -/
def SAMPLE_STEP : ℕ := 10

/-- Agro.cpp: `constexpr uint8_t REPORT_SEC = 5` (report at hh:00:05). -/
def REPORT_SEC : ℕ := 5

/-! Constants of `src/AgroPRO.cpp` (same values, different names). -/

/-- AgroPRO.cpp: `const long GMT_OFFSET_SECONDS = 8 * 3600`. -/
def GMT_OFFSET_SECONDS : ℕ := 8 * 3600

/-- AgroPRO.cpp: `const long MIN_EPOCH_TIME_SEC = 946684800L`. -/
def MIN_EPOCH_TIME_SEC : ℕ := 946684800

/-- AgroPRO.cpp: `const int SAMPLES_PER_HOUR = 6`. -/
def SAMPLES_PER_HOUR : ℕ := 6

/-- AgroPRO.cpp: `const int SAMPLING_INTERVAL_MIN = 10`. -/
def SAMPLING_INTERVAL_MIN : ℕ := 10

/-- AgroPRO.cpp: `const int REPORTING_TRIGGER_SECOND = 5`. -/
def REPORTING_TRIGGER_SECOND : ℕ := 5

/-- DallasTemperature library constant `DEVICE_DISCONNECTED_C` (equal to -127). -/
def DEVICE_DISCONNECTED_C : ℚ := -127

/-- The fields of `struct tm` that the sketches read. -/
structure Tm where
  tm_hour : ℕ
  tm_min : ℕ
  tm_sec : ℕ
deriving DecidableEq, Repr

/-- Model of `localtime_r` after `configTime(GMT_OFFSET, 0, ...)`: local civil
time for a GMT+8 zone without DST, derived arithmetically from the epoch. -/
def localtime (epoch : ℕ) : Tm :=
  let lt := epoch + GMT_OFFSET
  ⟨lt / 3600 % 24, lt / 60 % 60, lt % 60⟩

/-- Raw values produced by one pass over the sensors: `ds i` is
`ds.getTempC(DS_ADDR[i])` (the library returns a float, using -127 as its
disconnected sentinel), `dhtT`/`dhtH` are `dht.readTemperature()` /
`dht.readHumidity()` which are NaN (`none`) on failure. -/
structure SensorInput where
  ds : Fin 4 → ℚ
  dhtT : Reading
  dhtH : Reading

/-- The sentinel filter both sketches apply to every DS18B20 probe reading:
`(tc==DEVICE_DISCONNECTED_C||tc==85||tc==-127)?NAN:tc`. -/
def filterProbe (tc : ℚ) : Reading :=
  if tc = DEVICE_DISCONNECTED_C ∨ tc = 85 ∨ tc = -127 then none else some tc

/-- Accumulator of Agro.cpp `avg` / AgroPRO.cpp `calculateAverage`: the pair
(sum of non-NaN entries, count of non-NaN entries) after the loop
`for i in [0, n)`. -/
def avgAux (a : ℕ → Reading) : ℕ → ℚ × ℕ
  | 0 => (0, 0)
  | n + 1 =>
    let p := avgAux a n
    match a n with
    | some v => (p.1 + v, p.2 + 1)
    | none => p

/-- Agro.cpp `avg(const float* a, uint8_t n)`: NaN-tolerant mean of the first
`n` slots, NaN when no slot is valid. -/
def avg (a : ℕ → Reading) (n : ℕ) : Reading :=
  let p := avgAux a n
  if p.2 = 0 then none else some (p.1 / (p.2 : ℚ))

/-- AgroPRO.cpp `calculateAverage(const float arr[], int num_samples)`: the
same loop, with an explicit early NaN return when `num_samples == 0`. -/
def calculateAverage (arr : ℕ → Reading) (num_samples : ℕ) : Reading :=
  if num_samples = 0 then none
  else
    let p := avgAux arr num_samples
    if p.2 = 0 then none else some (p.1 / (p.2 : ℚ))

/-- Specification-side view for the averaging claim: the list of valid
(non-NaN) entries among the first `n` slots of a window. -/
def validEntries (a : ℕ → Reading) (n : ℕ) : List ℚ :=
  ((List.range n).map a).filterMap id

/-- The shared mutable scheduler state of both sketches: the per-channel
sample ring buffers, the ring write index, the populated-count, and the
boundary de-duplication state.  Names follow Agro.cpp (`dsBuf`, `bufIdx`,
`validSamples`, `lastSampleMin`, `lastReportHr`); AgroPRO.cpp names the same
variables `ds18b20_temp_samples`, `current_sample_index`,
`samples_taken_this_hour`, `last_sample_minute_taken`,
`last_report_hour_sent`. -/
structure State where
  dsBuf : Fin 4 → Fin 6 → Reading
  dhtTBuf : Fin 6 → Reading
  dhtHBuf : Fin 6 → Reading
  bufIdx : ℕ
  validSamples : ℕ
  lastSampleMin : ℤ
  lastReportHr : ℤ

/-- Agro.cpp `clearBuffers()`: every slot of every channel buffer becomes NaN
(the counters are zeroed separately by the caller, in `loop()`). -/
def clearBuffers (s : State) : State :=
  { s with
    dsBuf := fun _ _ => none
    dhtTBuf := fun _ => none
    dhtHBuf := fun _ => none }

/-- AgroPRO.cpp `clearSampleArrays()`: identical buffer clearing. -/
def clearSampleArrays (s : State) : State :=
  { s with
    dsBuf := fun _ _ => none
    dhtTBuf := fun _ => none
    dhtHBuf := fun _ => none }

/-- The window reset both loops perform at a report boundary:
`clearBuffers(); bufIdx = 0; validSamples = 0;`. -/
def windowReset (s : State) : State :=
  { clearBuffers s with bufIdx := 0, validSamples := 0 }

/-- C array indexing into a 6-slot channel buffer (in the sketches every
access happens at an index below 6; out-of-range reads never occur). -/
def windowOf (a : Fin 6 → Reading) (i : ℕ) : Reading :=
  if h : i < 6 then a ⟨i, h⟩ else none

/-! Model of `src/Agro.cpp`. -/

/-- The Arduino Cloud variables Agro.cpp pushes to (`thingProperties.h`):
`temp1..temp4`, `dhtTemp`, `dhtHumi`. -/
structure Agro.Cloud where
  temp1 : Reading
  temp2 : Reading
  temp3 : Reading
  temp4 : Reading
  dhtTemp : Reading
  dhtHumi : Reading

/-- Agro.cpp `readSensorsFast()`: reads all sensors and pushes to the cloud
variables.  The probe channels always receive the freshly filtered value
(NaN on a sentinel); the DHT channels keep their previous value when the
fresh read is NaN (`dhtTemp = isnan(dhtT)?dhtTemp:dhtT`). -/
def Agro.readSensorsFast (inp : SensorInput) (c : Agro.Cloud) : Agro.Cloud where
  temp1 := filterProbe (inp.ds 0)
  temp2 := filterProbe (inp.ds 1)
  temp3 := filterProbe (inp.ds 2)
  temp4 := filterProbe (inp.ds 3)
  dhtTemp := match inp.dhtT with
    | none => c.dhtTemp
    | some v => some v
  dhtHumi := match inp.dhtH with
    | none => c.dhtHumi
    | some v => some v

/-- Environment inputs consumed by one iteration of Agro.cpp `loop()`:
whether the 5 s fast-read timer has elapsed, the sensor values seen by the
fast read and by the boundary sampling read, the wall-clock epoch returned
by `time(nullptr)`, and the discarded outcome of the HTTP POST. -/
structure Agro.TickInput where
  fastDue : Bool
  fastSensors : SensorInput
  epoch : ℕ
  sampleSensors : SensorInput
  deliveryOk : Bool

/-- Outcome of one iteration of Agro.cpp `loop()`: the new scheduler state
and cloud variables, whether the 10-min sampling block ran, whether the
hourly `postSheet()` block ran, and the report content handed to the sink
(the six per-channel averages), `none` when no report was built. -/
structure Agro.TickResult where
  state : State
  cloud : Agro.Cloud
  sampled : Bool
  reported : Bool
  report : Option (List Reading)

/-- The six-channel average snapshot Agro.cpp `postSheet()` computes with
`avg(..., validSamples)`. -/
def Agro.buildReport (s : State) : List Reading :=
  [avg (windowOf (s.dsBuf 0)) s.validSamples,
   avg (windowOf (s.dsBuf 1)) s.validSamples,
   avg (windowOf (s.dsBuf 2)) s.validSamples,
   avg (windowOf (s.dsBuf 3)) s.validSamples,
   avg (windowOf s.dhtTBuf) s.validSamples,
   avg (windowOf s.dhtHBuf) s.validSamples]

/-- One iteration of Agro.cpp `loop()` (lines 76-108): fast cloud read,
clock-validity gate, 10-minute sample into the ring, de-duplication reset,
hourly post with window reset. -/
def Agro.loopStep (inp : Agro.TickInput) (s : State) (c : Agro.Cloud) :
    Agro.TickResult :=
  let c0 := if inp.fastDue then Agro.readSensorsFast inp.fastSensors c else c
  if inp.epoch < MIN_EPOCH then
    { state := s, cloud := c0, sampled := false, reported := false, report := none }
  else
    let t := localtime inp.epoch
    let ss :=
      if t.tm_min % SAMPLE_STEP = 0 ∧ t.tm_sec = 0 ∧ s.lastSampleMin ≠ (t.tm_min : ℤ) then
        ({ s with
            dsBuf := fun i j =>
              if (j : ℕ) = s.bufIdx then filterProbe (inp.sampleSensors.ds i)
              else s.dsBuf i j
            dhtTBuf := fun j =>
              if (j : ℕ) = s.bufIdx then inp.sampleSensors.dhtT else s.dhtTBuf j
            dhtHBuf := fun j =>
              if (j : ℕ) = s.bufIdx then inp.sampleSensors.dhtH else s.dhtHBuf j
            validSamples := min ((s.validSamples + 1) % 256) SAMPLES_HR
            bufIdx := (s.bufIdx + 1) % SAMPLES_HR
            lastSampleMin := (t.tm_min : ℤ) }, true)
      else (s, false)
    let s1 := ss.1
    let sampled := ss.2
    let s2 := if t.tm_min % SAMPLE_STEP ≠ 0 then { s1 with lastSampleMin := -1 } else s1
    if t.tm_min = 0 ∧ t.tm_sec = REPORT_SEC ∧ s2.lastReportHr ≠ (t.tm_hour : ℤ) ∧
        s2.validSamples ≠ 0 then
      let s3 := { clearBuffers s2 with bufIdx := 0, validSamples := 0, lastReportHr := (t.tm_hour : ℤ) }
      { state := s3
        cloud := c0, sampled := sampled, reported := true
        report := some (Agro.buildReport s2) }
    else
      { state := s2, cloud := c0, sampled := sampled, reported := false, report := none }

/-- Repeated iterations of Agro.cpp `loop()` over a list of tick inputs;
returns the final state and cloud together with how many ticks ran the
sampling block and how many ran the reporting block. -/
def Agro.run : State → Agro.Cloud → List Agro.TickInput → State × Agro.Cloud × ℕ × ℕ
  | s, c, [] => (s, c, 0, 0)
  | s, c, inp :: rest =>
    let r := Agro.loopStep inp s c
    let q := Agro.run r.state r.cloud rest
    (q.1, q.2.1, (if r.sampled then 1 else 0) + q.2.2.1,
     (if r.reported then 1 else 0) + q.2.2.2)

/-! Model of `src/AgroPRO.cpp`. -/

/-- The Arduino Cloud variables AgroPRO.cpp pushes to: `sensor1..sensor4`,
`dhtTemp`, `dhtHumi`. -/
structure AgroPRO.Cloud where
  sensor1 : Reading
  sensor2 : Reading
  sensor3 : Reading
  sensor4 : Reading
  dhtTemp : Reading
  dhtHumi : Reading

/-- AgroPRO.cpp `takeSample(sample_idx)` (lines 194-230): stores the filtered
probe readings and the raw DHT readings into the sample arrays at
`sample_idx`, then mirrors exactly the just-stored values (including NaN)
to the cloud variables. -/
def AgroPRO.takeSample (sample_idx : ℕ) (inp : SensorInput) (s : State)
    (_c : AgroPRO.Cloud) : State × AgroPRO.Cloud :=
  let dsVals : Fin 4 → Reading := fun i => filterProbe (inp.ds i)
  let s1 : State :=
    { s with
      dsBuf := fun i j => if (j : ℕ) = sample_idx then dsVals i else s.dsBuf i j
      dhtTBuf := fun j => if (j : ℕ) = sample_idx then inp.dhtT else s.dhtTBuf j
      dhtHBuf := fun j => if (j : ℕ) = sample_idx then inp.dhtH else s.dhtHBuf j }
  let c1 : AgroPRO.Cloud :=
    { sensor1 := dsVals 0, sensor2 := dsVals 1, sensor3 := dsVals 2, sensor4 := dsVals 3,
      dhtTemp := inp.dhtT, dhtHumi := inp.dhtH }
  (s1, c1)

/-- Environment inputs consumed by one iteration of AgroPRO.cpp `loop()`:
the epoch from `time(nullptr)`, the sensor values read if a sample fires,
the WiFi connectivity seen by `reportDataToGoogleSheet()`, and the
discarded outcome of the HTTP POST. -/
structure AgroPRO.TickInput where
  epoch : ℕ
  sampleSensors : SensorInput
  wifiConnected : Bool
  deliveryOk : Bool

/-- Outcome of one iteration of AgroPRO.cpp `loop()`: new state and cloud,
which blocks ran, the report content built (if any), and whether an HTTP
delivery was actually attempted (`reportDataToGoogleSheet` returns early
without posting when WiFi is down). -/
structure AgroPRO.TickResult where
  state : State
  cloud : AgroPRO.Cloud
  sampled : Bool
  reported : Bool
  report : Option (List Reading)
  delivered : Bool

/-- The six-channel average snapshot AgroPRO.cpp `reportDataToGoogleSheet()`
computes with `calculateAverage(..., samples_taken_this_hour)`. -/
def AgroPRO.buildReport (s : State) : List Reading :=
  [calculateAverage (windowOf (s.dsBuf 0)) s.validSamples,
   calculateAverage (windowOf (s.dsBuf 1)) s.validSamples,
   calculateAverage (windowOf (s.dsBuf 2)) s.validSamples,
   calculateAverage (windowOf (s.dsBuf 3)) s.validSamples,
   calculateAverage (windowOf s.dhtTBuf) s.validSamples,
   calculateAverage (windowOf s.dhtHBuf) s.validSamples]

/-- One iteration of AgroPRO.cpp `loop()` (lines 100-158): clock-validity
gate, 10-minute `takeSample` into the ring, de-duplication reset, hourly
report with window reset.  The 12 h NTP resync timer touches no modelled
state and is omitted. -/
def AgroPRO.loopStep (inp : AgroPRO.TickInput) (s : State) (c : AgroPRO.Cloud) :
    AgroPRO.TickResult :=
  if inp.epoch < MIN_EPOCH_TIME_SEC then
    { state := s, cloud := c, sampled := false, reported := false, report := none,
      delivered := false }
  else
    let t := localtime inp.epoch
    let ss :=
      if t.tm_min % SAMPLING_INTERVAL_MIN = 0 ∧ t.tm_sec = 0 ∧
          s.lastSampleMin ≠ (t.tm_min : ℤ) then
        let p := AgroPRO.takeSample s.bufIdx inp.sampleSensors s c
        ({ p.1 with
            bufIdx := (s.bufIdx + 1) % SAMPLES_PER_HOUR
            validSamples := min (s.validSamples + 1) SAMPLES_PER_HOUR
            lastSampleMin := (t.tm_min : ℤ) }, p.2, true)
      else (s, c, false)
    let s1 := ss.1
    let c1 := ss.2.1
    let sampled := ss.2.2
    let s2 := if t.tm_min % SAMPLING_INTERVAL_MIN ≠ 0 then { s1 with lastSampleMin := -1 }
              else s1
    if t.tm_min = 0 ∧ t.tm_sec = REPORTING_TRIGGER_SECOND ∧
        s2.lastReportHr ≠ (t.tm_hour : ℤ) ∧ s2.validSamples ≠ 0 then
      let s3 := { clearSampleArrays s2 with bufIdx := 0, validSamples := 0, lastReportHr := (t.tm_hour : ℤ) }
      { state := s3
        cloud := c1, sampled := sampled, reported := true
        report := some (AgroPRO.buildReport s2), delivered := inp.wifiConnected }
    else
      { state := s2, cloud := c1, sampled := sampled, reported := false, report := none,
        delivered := false }

/-- Repeated iterations of AgroPRO.cpp `loop()` over a list of tick inputs;
returns the final state and cloud together with how many ticks ran the
sampling block and how many ran the reporting block. -/
def AgroPRO.run :
    State → AgroPRO.Cloud → List AgroPRO.TickInput → State × AgroPRO.Cloud × ℕ × ℕ
  | s, c, [] => (s, c, 0, 0)
  | s, c, inp :: rest =>
    let r := AgroPRO.loopStep inp s c
    let q := AgroPRO.run r.state r.cloud rest
    (q.1, q.2.1, (if r.sampled then 1 else 0) + q.2.2.1,
     (if r.reported then 1 else 0) + q.2.2.2)

/-! The per-claim sanity facts about `avg` / `calculateAverage`. -/

theorem avgAux_eq (a : ℕ → Reading) (n : ℕ) :
    avgAux a n = ((validEntries a n).sum, (validEntries a n).length) := by
  induction n with
  | zero => simp [avgAux, validEntries]
  | succ n ih =>
    rw [avgAux]
    cases h : a n with
    | none =>
      simp [ih, validEntries, List.range_succ, h]
    | some v =>
      simp [ih, validEntries, List.range_succ, h]

theorem calculateAverage_eq_avg (a : ℕ → Reading) (n : ℕ) :
    calculateAverage a n = avg a n := by
  cases n with
  | zero => simp [calculateAverage, avg, avgAux]
  | succ n => simp [calculateAverage, avg]

/-- C1: for every per-channel window `a` and populated count `n`, the
NaN-tolerant mean over the first `n` slots equals the sum of the valid
entries divided by their number `m`, and is the invalid marker (NaN)
exactly when `m = 0` (in particular when `n = 0`); AgroPRO.cpp
`calculateAverage` computes the same function as Agro.cpp `avg`. -/
theorem C1_nan_tolerant_mean (a : ℕ → Reading) (n : ℕ) :
    avg a n = (if validEntries a n = [] then none
               else some ((validEntries a n).sum / ((validEntries a n).length : ℚ))) ∧
    calculateAverage a n = avg a n ∧
    (avg a n = none ↔ validEntries a n = []) := by
  have h := avgAux_eq a n
  have h1 : avg a n = (if validEntries a n = [] then none
      else some ((validEntries a n).sum / ((validEntries a n).length : ℚ))) := by
    by_cases hl : validEntries a n = []
    · simp [avg, h, hl]
    · have : (validEntries a n).length ≠ 0 := by
        simpa [List.length_eq_zero] using hl
      simp [avg, h, hl, this]
  refine ⟨h1, calculateAverage_eq_avg a n, ?_⟩
  by_cases hl : validEntries a n = [] <;> simp [h1, hl]

/-- Concrete sensor pass used by closed witness instances: all probes read
25 C, the DHT reads 30 C and 60 percent humidity. -/
def exSensors : SensorInput := ⟨fun _ => 25, some 30, some 60⟩

/-- Concrete sensor pass in which every device has failed: the probes return
the disconnected sentinel and both DHT reads are NaN. -/
def exDiscSensors : SensorInput := ⟨fun _ => -127, none, none⟩

/-- Concrete scheduler state used by closed witness instances: an empty
window, as after `setup()`. -/
def exState : State := ⟨fun _ _ => none, fun _ => none, fun _ => none, 0, 0, -1, -1⟩

/-- Concrete scheduler state holding one populated sample slot. -/
def exStateOne : State :=
  ⟨fun _ _ => some 20, fun _ => some 21, fun _ => some 55, 1, 1, -1, -1⟩

/-- Concrete Agro.cpp cloud-variable assignment with known-good values. -/
def exCloudA : Agro.Cloud := ⟨some 20, some 20, some 20, some 20, some 21, some 55⟩

/-- Concrete AgroPRO.cpp cloud-variable assignment with known-good values. -/
def exCloudP : AgroPRO.Cloud := ⟨some 20, some 20, some 20, some 20, some 21, some 55⟩

/-! Per-tick characterization lemmas for AgroPRO.cpp `loop()`. -/

theorem AgroPRO.loopStep_invalid_pro (inp : AgroPRO.TickInput) (s : State) (c : AgroPRO.Cloud)
    (hv : inp.epoch < MIN_EPOCH_TIME_SEC) :
    AgroPRO.loopStep inp s c =
      { state := s, cloud := c, sampled := false, reported := false, report := none,
        delivered := false } := by
  simp [AgroPRO.loopStep, hv]

theorem AgroPRO.loopStep_sample_fires_pro (inp : AgroPRO.TickInput) (s : State)
    (c : AgroPRO.Cloud) (hv : MIN_EPOCH_TIME_SEC ≤ inp.epoch)
    (hmin : (localtime inp.epoch).tm_min % SAMPLING_INTERVAL_MIN = 0)
    (hsec : (localtime inp.epoch).tm_sec = 0)
    (hne : s.lastSampleMin ≠ ((localtime inp.epoch).tm_min : ℤ)) :
    AgroPRO.loopStep inp s c =
      { state :=
          { (AgroPRO.takeSample s.bufIdx inp.sampleSensors s c).1 with
            bufIdx := (s.bufIdx + 1) % SAMPLES_PER_HOUR
            validSamples := min (s.validSamples + 1) SAMPLES_PER_HOUR
            lastSampleMin := ((localtime inp.epoch).tm_min : ℤ) }
        cloud := (AgroPRO.takeSample s.bufIdx inp.sampleSensors s c).2
        sampled := true, reported := false, report := none, delivered := false } := by
  have hv' : ¬ inp.epoch < MIN_EPOCH_TIME_SEC := by omega
  simp [AgroPRO.loopStep, hv', hmin, hsec, hne, REPORTING_TRIGGER_SECOND]

theorem AgroPRO.loopStep_sample_blocked_pro (inp : AgroPRO.TickInput) (s : State)
    (c : AgroPRO.Cloud) (hv : MIN_EPOCH_TIME_SEC ≤ inp.epoch)
    (hmin : (localtime inp.epoch).tm_min % SAMPLING_INTERVAL_MIN = 0)
    (hsec : (localtime inp.epoch).tm_sec = 0)
    (heq : s.lastSampleMin = ((localtime inp.epoch).tm_min : ℤ)) :
    AgroPRO.loopStep inp s c =
      { state := s, cloud := c, sampled := false, reported := false, report := none,
        delivered := false } := by
  have hv' : ¬ inp.epoch < MIN_EPOCH_TIME_SEC := by omega
  simp [AgroPRO.loopStep, hv', hmin, hsec, heq, REPORTING_TRIGGER_SECOND]

theorem AgroPRO.loopStep_clear_pro (inp : AgroPRO.TickInput) (s : State) (c : AgroPRO.Cloud)
    (hv : MIN_EPOCH_TIME_SEC ≤ inp.epoch)
    (hmin : (localtime inp.epoch).tm_min % SAMPLING_INTERVAL_MIN ≠ 0) :
    AgroPRO.loopStep inp s c =
      { state := { s with lastSampleMin := -1 }, cloud := c, sampled := false,
        reported := false, report := none, delivered := false } := by
  have hv' : ¬ inp.epoch < MIN_EPOCH_TIME_SEC := by omega
  have h0 : (localtime inp.epoch).tm_min ≠ 0 := by
    intro h
    exact hmin (by simp [h])
  simp [AgroPRO.loopStep, hv', hmin, h0]

theorem AgroPRO.loopStep_report_fires_pro (inp : AgroPRO.TickInput) (s : State)
    (c : AgroPRO.Cloud) (hv : MIN_EPOCH_TIME_SEC ≤ inp.epoch)
    (hmin : (localtime inp.epoch).tm_min = 0)
    (hsec : (localtime inp.epoch).tm_sec = REPORTING_TRIGGER_SECOND)
    (hne : s.lastReportHr ≠ ((localtime inp.epoch).tm_hour : ℤ))
    (hvs : s.validSamples ≠ 0) :
    AgroPRO.loopStep inp s c =
      { state := { clearSampleArrays s with bufIdx := 0, validSamples := 0, lastReportHr := ((localtime inp.epoch).tm_hour : ℤ) }
        cloud := c, sampled := false, reported := true
        report := some (AgroPRO.buildReport s), delivered := inp.wifiConnected } := by
  have hv' : ¬ inp.epoch < MIN_EPOCH_TIME_SEC := by omega
  simp [AgroPRO.loopStep, hv', hmin, hsec, hne, hvs, REPORTING_TRIGGER_SECOND,
    SAMPLING_INTERVAL_MIN]

theorem AgroPRO.loopStep_report_blocked_hour_pro (inp : AgroPRO.TickInput) (s : State)
    (c : AgroPRO.Cloud) (hv : MIN_EPOCH_TIME_SEC ≤ inp.epoch)
    (hmin : (localtime inp.epoch).tm_min = 0)
    (hsec : (localtime inp.epoch).tm_sec = REPORTING_TRIGGER_SECOND)
    (heq : s.lastReportHr = ((localtime inp.epoch).tm_hour : ℤ)) :
    AgroPRO.loopStep inp s c =
      { state := s, cloud := c, sampled := false, reported := false, report := none,
        delivered := false } := by
  have hv' : ¬ inp.epoch < MIN_EPOCH_TIME_SEC := by omega
  simp [AgroPRO.loopStep, hv', hmin, hsec, heq, REPORTING_TRIGGER_SECOND,
    SAMPLING_INTERVAL_MIN]

theorem AgroPRO.loopStep_report_skip_empty_pro (inp : AgroPRO.TickInput) (s : State)
    (c : AgroPRO.Cloud) (hv : MIN_EPOCH_TIME_SEC ≤ inp.epoch)
    (hmin : (localtime inp.epoch).tm_min = 0)
    (hsec : (localtime inp.epoch).tm_sec = REPORTING_TRIGGER_SECOND)
    (hvs : s.validSamples = 0) :
    AgroPRO.loopStep inp s c =
      { state := s, cloud := c, sampled := false, reported := false, report := none,
        delivered := false } := by
  have hv' : ¬ inp.epoch < MIN_EPOCH_TIME_SEC := by omega
  simp [AgroPRO.loopStep, hv', hmin, hsec, hvs, REPORTING_TRIGGER_SECOND,
    SAMPLING_INTERVAL_MIN]

/-! Per-tick characterization lemmas for Agro.cpp `loop()`. -/

theorem Agro.loopStep_invalid_agro (inp : Agro.TickInput) (s : State) (c : Agro.Cloud)
    (hv : inp.epoch < MIN_EPOCH) :
    Agro.loopStep inp s c =
      { state := s
        cloud := if inp.fastDue then Agro.readSensorsFast inp.fastSensors c else c
        sampled := false, reported := false, report := none } := by
  simp [Agro.loopStep, hv]

theorem Agro.loopStep_sample_fires_agro (inp : Agro.TickInput) (s : State) (c : Agro.Cloud)
    (hv : MIN_EPOCH ≤ inp.epoch)
    (hmin : (localtime inp.epoch).tm_min % SAMPLE_STEP = 0)
    (hsec : (localtime inp.epoch).tm_sec = 0)
    (hne : s.lastSampleMin ≠ ((localtime inp.epoch).tm_min : ℤ)) :
    Agro.loopStep inp s c =
      { state :=
          { s with
            dsBuf := fun i j =>
              if (j : ℕ) = s.bufIdx then filterProbe (inp.sampleSensors.ds i)
              else s.dsBuf i j
            dhtTBuf := fun j =>
              if (j : ℕ) = s.bufIdx then inp.sampleSensors.dhtT else s.dhtTBuf j
            dhtHBuf := fun j =>
              if (j : ℕ) = s.bufIdx then inp.sampleSensors.dhtH else s.dhtHBuf j
            validSamples := min ((s.validSamples + 1) % 256) SAMPLES_HR
            bufIdx := (s.bufIdx + 1) % SAMPLES_HR
            lastSampleMin := ((localtime inp.epoch).tm_min : ℤ) }
        cloud := if inp.fastDue then Agro.readSensorsFast inp.fastSensors c else c
        sampled := true, reported := false, report := none } := by
  have hv' : ¬ inp.epoch < MIN_EPOCH := by omega
  simp [Agro.loopStep, hv', hmin, hsec, hne, REPORT_SEC]

theorem Agro.loopStep_sample_blocked_agro (inp : Agro.TickInput) (s : State) (c : Agro.Cloud)
    (hv : MIN_EPOCH ≤ inp.epoch)
    (hmin : (localtime inp.epoch).tm_min % SAMPLE_STEP = 0)
    (hsec : (localtime inp.epoch).tm_sec = 0)
    (heq : s.lastSampleMin = ((localtime inp.epoch).tm_min : ℤ)) :
    Agro.loopStep inp s c =
      { state := s
        cloud := if inp.fastDue then Agro.readSensorsFast inp.fastSensors c else c
        sampled := false, reported := false, report := none } := by
  have hv' : ¬ inp.epoch < MIN_EPOCH := by omega
  simp [Agro.loopStep, hv', hmin, hsec, heq, REPORT_SEC]

theorem Agro.loopStep_clear_agro (inp : Agro.TickInput) (s : State) (c : Agro.Cloud)
    (hv : MIN_EPOCH ≤ inp.epoch)
    (hmin : (localtime inp.epoch).tm_min % SAMPLE_STEP ≠ 0) :
    Agro.loopStep inp s c =
      { state := { s with lastSampleMin := -1 }
        cloud := if inp.fastDue then Agro.readSensorsFast inp.fastSensors c else c
        sampled := false, reported := false, report := none } := by
  have hv' : ¬ inp.epoch < MIN_EPOCH := by omega
  have h0 : (localtime inp.epoch).tm_min ≠ 0 := by
    intro h
    exact hmin (by simp [h])
  simp [Agro.loopStep, hv', hmin, h0]

theorem Agro.loopStep_report_fires_agro (inp : Agro.TickInput) (s : State) (c : Agro.Cloud)
    (hv : MIN_EPOCH ≤ inp.epoch)
    (hmin : (localtime inp.epoch).tm_min = 0)
    (hsec : (localtime inp.epoch).tm_sec = REPORT_SEC)
    (hne : s.lastReportHr ≠ ((localtime inp.epoch).tm_hour : ℤ))
    (hvs : s.validSamples ≠ 0) :
    Agro.loopStep inp s c =
      { state := { clearBuffers s with bufIdx := 0, validSamples := 0, lastReportHr := ((localtime inp.epoch).tm_hour : ℤ) }
        cloud := if inp.fastDue then Agro.readSensorsFast inp.fastSensors c else c
        sampled := false, reported := true
        report := some (Agro.buildReport s) } := by
  have hv' : ¬ inp.epoch < MIN_EPOCH := by omega
  simp [Agro.loopStep, hv', hmin, hsec, hne, hvs, REPORT_SEC, SAMPLE_STEP]

theorem Agro.loopStep_report_blocked_hour_agro (inp : Agro.TickInput) (s : State)
    (c : Agro.Cloud) (hv : MIN_EPOCH ≤ inp.epoch)
    (hmin : (localtime inp.epoch).tm_min = 0)
    (hsec : (localtime inp.epoch).tm_sec = REPORT_SEC)
    (heq : s.lastReportHr = ((localtime inp.epoch).tm_hour : ℤ)) :
    Agro.loopStep inp s c =
      { state := s
        cloud := if inp.fastDue then Agro.readSensorsFast inp.fastSensors c else c
        sampled := false, reported := false, report := none } := by
  have hv' : ¬ inp.epoch < MIN_EPOCH := by omega
  simp [Agro.loopStep, hv', hmin, hsec, heq, REPORT_SEC, SAMPLE_STEP]

theorem Agro.loopStep_report_skip_empty_agro (inp : Agro.TickInput) (s : State)
    (c : Agro.Cloud) (hv : MIN_EPOCH ≤ inp.epoch)
    (hmin : (localtime inp.epoch).tm_min = 0)
    (hsec : (localtime inp.epoch).tm_sec = REPORT_SEC)
    (hvs : s.validSamples = 0) :
    Agro.loopStep inp s c =
      { state := s
        cloud := if inp.fastDue then Agro.readSensorsFast inp.fastSensors c else c
        sampled := false, reported := false, report := none } := by
  have hv' : ¬ inp.epoch < MIN_EPOCH := by omega
  simp [Agro.loopStep, hv', hmin, hsec, hvs, REPORT_SEC, SAMPLE_STEP]

theorem AgroPRO.loopStep_idle_pro (inp : AgroPRO.TickInput) (s : State) (c : AgroPRO.Cloud)
    (hv : MIN_EPOCH_TIME_SEC ≤ inp.epoch)
    (hmin : (localtime inp.epoch).tm_min % SAMPLING_INTERVAL_MIN = 0)
    (hsec : (localtime inp.epoch).tm_sec ≠ 0)
    (hnb : (localtime inp.epoch).tm_min ≠ 0 ∨
      (localtime inp.epoch).tm_sec ≠ REPORTING_TRIGGER_SECOND) :
    AgroPRO.loopStep inp s c =
      { state := s, cloud := c, sampled := false, reported := false, report := none,
        delivered := false } := by
  have hv' : ¬ inp.epoch < MIN_EPOCH_TIME_SEC := by omega
  rcases hnb with h | h <;> simp [AgroPRO.loopStep, hv', hmin, hsec, h]

theorem Agro.loopStep_idle_agro (inp : Agro.TickInput) (s : State) (c : Agro.Cloud)
    (hv : MIN_EPOCH ≤ inp.epoch)
    (hmin : (localtime inp.epoch).tm_min % SAMPLE_STEP = 0)
    (hsec : (localtime inp.epoch).tm_sec ≠ 0)
    (hnb : (localtime inp.epoch).tm_min ≠ 0 ∨
      (localtime inp.epoch).tm_sec ≠ REPORT_SEC) :
    Agro.loopStep inp s c =
      { state := s
        cloud := if inp.fastDue then Agro.readSensorsFast inp.fastSensors c else c
        sampled := false, reported := false, report := none } := by
  have hv' : ¬ inp.epoch < MIN_EPOCH := by omega
  rcases hnb with h | h <;> simp [Agro.loopStep, hv', hmin, hsec, h]

/-- One AgroPRO.cpp tick whose wall-clock second is not the report boundary
second (hh:00:05) never runs the reporting block. -/
theorem AgroPRO.not_reported_off_boundary_pro (inp : AgroPRO.TickInput) (s : State)
    (c : AgroPRO.Cloud)
    (hnb : (localtime inp.epoch).tm_min ≠ 0 ∨
      (localtime inp.epoch).tm_sec ≠ REPORTING_TRIGGER_SECOND) :
    (AgroPRO.loopStep inp s c).reported = false := by
  by_cases hv : inp.epoch < MIN_EPOCH_TIME_SEC
  · rw [AgroPRO.loopStep_invalid_pro inp s c hv]
  · have hv' : MIN_EPOCH_TIME_SEC ≤ inp.epoch := by omega
    by_cases hmin : (localtime inp.epoch).tm_min % SAMPLING_INTERVAL_MIN = 0
    · by_cases hsec : (localtime inp.epoch).tm_sec = 0
      · by_cases heq : s.lastSampleMin = ((localtime inp.epoch).tm_min : ℤ)
        · rw [AgroPRO.loopStep_sample_blocked_pro inp s c hv' hmin hsec heq]
        · rw [AgroPRO.loopStep_sample_fires_pro inp s c hv' hmin hsec heq]
      · rw [AgroPRO.loopStep_idle_pro inp s c hv' hmin hsec hnb]
    · rw [AgroPRO.loopStep_clear_pro inp s c hv' hmin]

/-- One Agro.cpp tick whose wall-clock second is not the report boundary
second (hh:00:05) never runs the reporting block. -/
theorem Agro.not_reported_off_boundary_agro (inp : Agro.TickInput) (s : State)
    (c : Agro.Cloud)
    (hnb : (localtime inp.epoch).tm_min ≠ 0 ∨
      (localtime inp.epoch).tm_sec ≠ REPORT_SEC) :
    (Agro.loopStep inp s c).reported = false := by
  by_cases hv : inp.epoch < MIN_EPOCH
  · rw [Agro.loopStep_invalid_agro inp s c hv]
  · have hv' : MIN_EPOCH ≤ inp.epoch := by omega
    by_cases hmin : (localtime inp.epoch).tm_min % SAMPLE_STEP = 0
    · by_cases hsec : (localtime inp.epoch).tm_sec = 0
      · by_cases heq : s.lastSampleMin = ((localtime inp.epoch).tm_min : ℤ)
        · rw [Agro.loopStep_sample_blocked_agro inp s c hv' hmin hsec heq]
        · rw [Agro.loopStep_sample_fires_agro inp s c hv' hmin hsec heq]
      · rw [Agro.loopStep_idle_agro inp s c hv' hmin hsec hnb]
    · rw [Agro.loopStep_clear_agro inp s c hv' hmin]

/-! Trace-level counting lemmas: behaviour over repeated polls of the same
wall-clock second. -/

theorem AgroPRO.run_sample_blocked_pro (e : ℕ) (inps : List AgroPRO.TickInput) :
    ∀ (s : State) (c : AgroPRO.Cloud), (∀ inp ∈ inps, inp.epoch = e) →
    MIN_EPOCH_TIME_SEC ≤ e → (localtime e).tm_min % SAMPLING_INTERVAL_MIN = 0 →
    (localtime e).tm_sec = 0 → s.lastSampleMin = ((localtime e).tm_min : ℤ) →
    (AgroPRO.run s c inps).2.2.1 = 0 := by
  induction inps with
  | nil => intro s c _ _ _ _ _; rfl
  | cons inp rest ih =>
    intro s c hall hv hmin hsec heq
    have he : inp.epoch = e := hall inp (List.mem_cons_self inp rest)
    have hstep := AgroPRO.loopStep_sample_blocked_pro inp s c (by rw [he]; exact hv)
      (by rw [he]; exact hmin) (by rw [he]; exact hsec) (by rw [he]; exact heq)
    simp only [AgroPRO.run, hstep]
    simp only [if_neg (Bool.false_ne_true), Nat.zero_add]
    exact ih s c (fun i hi => hall i (List.mem_cons_of_mem inp hi)) hv hmin hsec heq

theorem AgroPRO.run_sample_once_pro (e : ℕ) (inps : List AgroPRO.TickInput) (s : State)
    (c : AgroPRO.Cloud) (hall : ∀ inp ∈ inps, inp.epoch = e)
    (hv : MIN_EPOCH_TIME_SEC ≤ e) (hmin : (localtime e).tm_min % SAMPLING_INTERVAL_MIN = 0)
    (hsec : (localtime e).tm_sec = 0)
    (hne : s.lastSampleMin ≠ ((localtime e).tm_min : ℤ)) (hnil : inps ≠ []) :
    (AgroPRO.run s c inps).2.2.1 = 1 := by
  cases inps with
  | nil => exact absurd rfl hnil
  | cons inp rest =>
    have he : inp.epoch = e := hall inp (List.mem_cons_self inp rest)
    have hstep := AgroPRO.loopStep_sample_fires_pro inp s c (by rw [he]; exact hv)
      (by rw [he]; exact hmin) (by rw [he]; exact hsec) (by rw [he]; exact hne)
    have hrest := AgroPRO.run_sample_blocked_pro e rest
      { (AgroPRO.takeSample s.bufIdx inp.sampleSensors s c).1 with
        bufIdx := (s.bufIdx + 1) % SAMPLES_PER_HOUR
        validSamples := min (s.validSamples + 1) SAMPLES_PER_HOUR
        lastSampleMin := ((localtime inp.epoch).tm_min : ℤ) }
      (AgroPRO.takeSample s.bufIdx inp.sampleSensors s c).2
      (fun i hi => hall i (List.mem_cons_of_mem inp hi)) hv hmin hsec (by simp [he])
    simp [AgroPRO.run, hstep, hrest]

theorem AgroPRO.run_report_blocked_pro (e : ℕ) (inps : List AgroPRO.TickInput) :
    ∀ (s : State) (c : AgroPRO.Cloud), (∀ inp ∈ inps, inp.epoch = e) →
    MIN_EPOCH_TIME_SEC ≤ e → (localtime e).tm_min = 0 →
    (localtime e).tm_sec = REPORTING_TRIGGER_SECOND →
    s.lastReportHr = ((localtime e).tm_hour : ℤ) →
    (AgroPRO.run s c inps).2.2.2 = 0 := by
  induction inps with
  | nil => intro s c _ _ _ _ _; rfl
  | cons inp rest ih =>
    intro s c hall hv hmin hsec heq
    have he : inp.epoch = e := hall inp (List.mem_cons_self inp rest)
    have hstep := AgroPRO.loopStep_report_blocked_hour_pro inp s c (by rw [he]; exact hv)
      (by rw [he]; exact hmin) (by rw [he]; exact hsec) (by rw [he]; exact heq)
    simp only [AgroPRO.run, hstep]
    simp only [if_neg (Bool.false_ne_true), Nat.zero_add]
    exact ih s c (fun i hi => hall i (List.mem_cons_of_mem inp hi)) hv hmin hsec heq

theorem AgroPRO.run_report_once_pro (e : ℕ) (inps : List AgroPRO.TickInput) (s : State)
    (c : AgroPRO.Cloud) (hall : ∀ inp ∈ inps, inp.epoch = e)
    (hv : MIN_EPOCH_TIME_SEC ≤ e) (hmin : (localtime e).tm_min = 0)
    (hsec : (localtime e).tm_sec = REPORTING_TRIGGER_SECOND)
    (hne : s.lastReportHr ≠ ((localtime e).tm_hour : ℤ)) (hvs : s.validSamples ≠ 0)
    (hnil : inps ≠ []) :
    (AgroPRO.run s c inps).2.2.2 = 1 := by
  cases inps with
  | nil => exact absurd rfl hnil
  | cons inp rest =>
    have he : inp.epoch = e := hall inp (List.mem_cons_self inp rest)
    have hstep := AgroPRO.loopStep_report_fires_pro inp s c (by rw [he]; exact hv)
      (by rw [he]; exact hmin) (by rw [he]; exact hsec) (by rw [he]; exact hne)
      (by exact hvs)
    have hrest := AgroPRO.run_report_blocked_pro e rest
      { clearSampleArrays s with bufIdx := 0, validSamples := 0, lastReportHr := ((localtime inp.epoch).tm_hour : ℤ) }
      c (fun i hi => hall i (List.mem_cons_of_mem inp hi)) hv hmin hsec (by simp [he])
    simp [AgroPRO.run, hstep, hrest]

theorem Agro.run_sample_blocked_agro (e : ℕ) (inps : List Agro.TickInput) :
    ∀ (s : State) (c : Agro.Cloud), (∀ inp ∈ inps, inp.epoch = e) →
    MIN_EPOCH ≤ e → (localtime e).tm_min % SAMPLE_STEP = 0 →
    (localtime e).tm_sec = 0 → s.lastSampleMin = ((localtime e).tm_min : ℤ) →
    (Agro.run s c inps).2.2.1 = 0 := by
  induction inps with
  | nil => intro s c _ _ _ _ _; rfl
  | cons inp rest ih =>
    intro s c hall hv hmin hsec heq
    have he : inp.epoch = e := hall inp (List.mem_cons_self inp rest)
    have hstep := Agro.loopStep_sample_blocked_agro inp s c (by rw [he]; exact hv)
      (by rw [he]; exact hmin) (by rw [he]; exact hsec) (by rw [he]; exact heq)
    simp only [Agro.run, hstep]
    simp only [if_neg (Bool.false_ne_true), Nat.zero_add]
    exact ih s _ (fun i hi => hall i (List.mem_cons_of_mem inp hi)) hv hmin hsec heq

theorem Agro.run_sample_once_agro (e : ℕ) (inps : List Agro.TickInput) (s : State)
    (c : Agro.Cloud) (hall : ∀ inp ∈ inps, inp.epoch = e)
    (hv : MIN_EPOCH ≤ e) (hmin : (localtime e).tm_min % SAMPLE_STEP = 0)
    (hsec : (localtime e).tm_sec = 0)
    (hne : s.lastSampleMin ≠ ((localtime e).tm_min : ℤ)) (hnil : inps ≠ []) :
    (Agro.run s c inps).2.2.1 = 1 := by
  cases inps with
  | nil => exact absurd rfl hnil
  | cons inp rest =>
    have he : inp.epoch = e := hall inp (List.mem_cons_self inp rest)
    have hstep := Agro.loopStep_sample_fires_agro inp s c (by rw [he]; exact hv)
      (by rw [he]; exact hmin) (by rw [he]; exact hsec) (by rw [he]; exact hne)
    have hrest := Agro.run_sample_blocked_agro e rest
      { s with
        dsBuf := fun i j =>
          if (j : ℕ) = s.bufIdx then filterProbe (inp.sampleSensors.ds i)
          else s.dsBuf i j
        dhtTBuf := fun j =>
          if (j : ℕ) = s.bufIdx then inp.sampleSensors.dhtT else s.dhtTBuf j
        dhtHBuf := fun j =>
          if (j : ℕ) = s.bufIdx then inp.sampleSensors.dhtH else s.dhtHBuf j
        validSamples := min ((s.validSamples + 1) % 256) SAMPLES_HR
        bufIdx := (s.bufIdx + 1) % SAMPLES_HR
        lastSampleMin := ((localtime inp.epoch).tm_min : ℤ) }
      (if inp.fastDue then Agro.readSensorsFast inp.fastSensors c else c)
      (fun i hi => hall i (List.mem_cons_of_mem inp hi)) hv hmin hsec (by simp [he])
    simp [Agro.run, hstep, hrest]

theorem Agro.run_report_blocked_agro (e : ℕ) (inps : List Agro.TickInput) :
    ∀ (s : State) (c : Agro.Cloud), (∀ inp ∈ inps, inp.epoch = e) →
    MIN_EPOCH ≤ e → (localtime e).tm_min = 0 →
    (localtime e).tm_sec = REPORT_SEC →
    s.lastReportHr = ((localtime e).tm_hour : ℤ) →
    (Agro.run s c inps).2.2.2 = 0 := by
  induction inps with
  | nil => intro s c _ _ _ _ _; rfl
  | cons inp rest ih =>
    intro s c hall hv hmin hsec heq
    have he : inp.epoch = e := hall inp (List.mem_cons_self inp rest)
    have hstep := Agro.loopStep_report_blocked_hour_agro inp s c (by rw [he]; exact hv)
      (by rw [he]; exact hmin) (by rw [he]; exact hsec) (by rw [he]; exact heq)
    simp only [Agro.run, hstep]
    simp only [if_neg (Bool.false_ne_true), Nat.zero_add]
    exact ih s _ (fun i hi => hall i (List.mem_cons_of_mem inp hi)) hv hmin hsec heq

theorem Agro.run_report_once_agro (e : ℕ) (inps : List Agro.TickInput) (s : State)
    (c : Agro.Cloud) (hall : ∀ inp ∈ inps, inp.epoch = e)
    (hv : MIN_EPOCH ≤ e) (hmin : (localtime e).tm_min = 0)
    (hsec : (localtime e).tm_sec = REPORT_SEC)
    (hne : s.lastReportHr ≠ ((localtime e).tm_hour : ℤ)) (hvs : s.validSamples ≠ 0)
    (hnil : inps ≠ []) :
    (Agro.run s c inps).2.2.2 = 1 := by
  cases inps with
  | nil => exact absurd rfl hnil
  | cons inp rest =>
    have he : inp.epoch = e := hall inp (List.mem_cons_self inp rest)
    have hstep := Agro.loopStep_report_fires_agro inp s c (by rw [he]; exact hv)
      (by rw [he]; exact hmin) (by rw [he]; exact hsec) (by rw [he]; exact hne)
      (by exact hvs)
    have hrest := Agro.run_report_blocked_agro e rest
      { clearBuffers s with bufIdx := 0, validSamples := 0, lastReportHr := ((localtime inp.epoch).tm_hour : ℤ) }
      (if inp.fastDue then Agro.readSensorsFast inp.fastSensors c else c)
      (fun i hi => hall i (List.mem_cons_of_mem inp hi)) hv hmin hsec (by simp [he])
    simp [Agro.run, hstep, hrest]

/-- C2: over any run of loop ticks with a valid wall clock, a sample boundary
second (minute mod the sampling interval = 0, second = 0) entered with a
last-acted-on minute different from the current minute triggers the sampling
action exactly once, no matter how many times the loop polls during that
second; and any valid tick whose minute fails the minute-mod check clears
the last-acted-on minute back to -1, so the next boundary can fire.  Stated
for both variants (`AgroPRO.loopStep`/`AgroPRO.run` and
`Agro.loopStep`/`Agro.run`). -/
theorem C2_sample_boundary_fires_once :
    (∀ (e : ℕ) (inps : List AgroPRO.TickInput) (s : State) (c : AgroPRO.Cloud),
      MIN_EPOCH_TIME_SEC ≤ e → (localtime e).tm_min % SAMPLING_INTERVAL_MIN = 0 →
      (localtime e).tm_sec = 0 → s.lastSampleMin ≠ ((localtime e).tm_min : ℤ) →
      inps ≠ [] → (∀ inp ∈ inps, inp.epoch = e) →
      (AgroPRO.run s c inps).2.2.1 = 1) ∧
    (∀ (e : ℕ) (inps : List Agro.TickInput) (s : State) (c : Agro.Cloud),
      MIN_EPOCH ≤ e → (localtime e).tm_min % SAMPLE_STEP = 0 →
      (localtime e).tm_sec = 0 → s.lastSampleMin ≠ ((localtime e).tm_min : ℤ) →
      inps ≠ [] → (∀ inp ∈ inps, inp.epoch = e) →
      (Agro.run s c inps).2.2.1 = 1) ∧
    (∀ (inp : AgroPRO.TickInput) (s : State) (c : AgroPRO.Cloud),
      MIN_EPOCH_TIME_SEC ≤ inp.epoch →
      (localtime inp.epoch).tm_min % SAMPLING_INTERVAL_MIN ≠ 0 →
      (AgroPRO.loopStep inp s c).state.lastSampleMin = -1) ∧
    (∀ (inp : Agro.TickInput) (s : State) (c : Agro.Cloud),
      MIN_EPOCH ≤ inp.epoch → (localtime inp.epoch).tm_min % SAMPLE_STEP ≠ 0 →
      (Agro.loopStep inp s c).state.lastSampleMin = -1) := by
  refine ⟨?_, ?_, ?_, ?_⟩
  · intro e inps s c hv hmin hsec hne hnil hall
    exact AgroPRO.run_sample_once_pro e inps s c hall hv hmin hsec hne hnil
  · intro e inps s c hv hmin hsec hne hnil hall
    exact Agro.run_sample_once_agro e inps s c hall hv hmin hsec hne hnil
  · intro inp s c hv hmin
    rw [AgroPRO.loopStep_clear_pro inp s c hv hmin]
  · intro inp s c hv hmin
    rw [Agro.loopStep_clear_agro inp s c hv hmin]

/-- C3: over any run of loop ticks with a valid wall clock, a report boundary
second (minute = 0, second = the report trigger second) entered with a
last-acted-on hour different from the current hour and a nonzero populated
count runs the reporting action exactly once, however often the loop polls
during that second; a boundary tick with populated count 0 is skipped
entirely (no report built, no delivery attempted, state bit-for-bit
unchanged); a tick at any other second never reports; and a boundary tick
whose hour equals the last-acted-on hour never reports.  Stated for both
variants. -/
theorem C3_report_boundary_once_and_skip :
    (∀ (e : ℕ) (inps : List AgroPRO.TickInput) (s : State) (c : AgroPRO.Cloud),
      MIN_EPOCH_TIME_SEC ≤ e → (localtime e).tm_min = 0 →
      (localtime e).tm_sec = REPORTING_TRIGGER_SECOND →
      s.lastReportHr ≠ ((localtime e).tm_hour : ℤ) → s.validSamples ≠ 0 →
      inps ≠ [] → (∀ inp ∈ inps, inp.epoch = e) →
      (AgroPRO.run s c inps).2.2.2 = 1) ∧
    (∀ (e : ℕ) (inps : List Agro.TickInput) (s : State) (c : Agro.Cloud),
      MIN_EPOCH ≤ e → (localtime e).tm_min = 0 →
      (localtime e).tm_sec = REPORT_SEC →
      s.lastReportHr ≠ ((localtime e).tm_hour : ℤ) → s.validSamples ≠ 0 →
      inps ≠ [] → (∀ inp ∈ inps, inp.epoch = e) →
      (Agro.run s c inps).2.2.2 = 1) ∧
    (∀ (inp : AgroPRO.TickInput) (s : State) (c : AgroPRO.Cloud),
      MIN_EPOCH_TIME_SEC ≤ inp.epoch → (localtime inp.epoch).tm_min = 0 →
      (localtime inp.epoch).tm_sec = REPORTING_TRIGGER_SECOND →
      s.validSamples = 0 →
      AgroPRO.loopStep inp s c =
        { state := s, cloud := c, sampled := false, reported := false,
          report := none, delivered := false }) ∧
    (∀ (inp : Agro.TickInput) (s : State) (c : Agro.Cloud),
      MIN_EPOCH ≤ inp.epoch → (localtime inp.epoch).tm_min = 0 →
      (localtime inp.epoch).tm_sec = REPORT_SEC →
      s.validSamples = 0 →
      Agro.loopStep inp s c =
        { state := s
          cloud := if inp.fastDue then Agro.readSensorsFast inp.fastSensors c else c
          sampled := false, reported := false, report := none }) ∧
    (∀ (inp : AgroPRO.TickInput) (s : State) (c : AgroPRO.Cloud),
      (localtime inp.epoch).tm_min ≠ 0 ∨
        (localtime inp.epoch).tm_sec ≠ REPORTING_TRIGGER_SECOND →
      (AgroPRO.loopStep inp s c).reported = false) ∧
    (∀ (inp : Agro.TickInput) (s : State) (c : Agro.Cloud),
      (localtime inp.epoch).tm_min ≠ 0 ∨ (localtime inp.epoch).tm_sec ≠ REPORT_SEC →
      (Agro.loopStep inp s c).reported = false) ∧
    (∀ (inp : AgroPRO.TickInput) (s : State) (c : AgroPRO.Cloud),
      MIN_EPOCH_TIME_SEC ≤ inp.epoch → (localtime inp.epoch).tm_min = 0 →
      (localtime inp.epoch).tm_sec = REPORTING_TRIGGER_SECOND →
      s.lastReportHr = ((localtime inp.epoch).tm_hour : ℤ) →
      (AgroPRO.loopStep inp s c).reported = false) ∧
    (∀ (inp : Agro.TickInput) (s : State) (c : Agro.Cloud),
      MIN_EPOCH ≤ inp.epoch → (localtime inp.epoch).tm_min = 0 →
      (localtime inp.epoch).tm_sec = REPORT_SEC →
      s.lastReportHr = ((localtime inp.epoch).tm_hour : ℤ) →
      (Agro.loopStep inp s c).reported = false) := by
  refine ⟨?_, ?_, ?_, ?_, ?_, ?_, ?_, ?_⟩
  · intro e inps s c hv hmin hsec hne hvs hnil hall
    exact AgroPRO.run_report_once_pro e inps s c hall hv hmin hsec hne hvs hnil
  · intro e inps s c hv hmin hsec hne hvs hnil hall
    exact Agro.run_report_once_agro e inps s c hall hv hmin hsec hne hvs hnil
  · intro inp s c hv hmin hsec hvs
    exact AgroPRO.loopStep_report_skip_empty_pro inp s c hv hmin hsec hvs
  · intro inp s c hv hmin hsec hvs
    exact Agro.loopStep_report_skip_empty_agro inp s c hv hmin hsec hvs
  · intro inp s c hnb
    exact AgroPRO.not_reported_off_boundary_pro inp s c hnb
  · intro inp s c hnb
    exact Agro.not_reported_off_boundary_agro inp s c hnb
  · intro inp s c hv hmin hsec heq
    rw [AgroPRO.loopStep_report_blocked_hour_pro inp s c hv hmin hsec heq]
  · intro inp s c hv hmin hsec heq
    rw [Agro.loopStep_report_blocked_hour_agro inp s c hv hmin hsec heq]

/-- C4: on a tick whose wall-clock epoch is below the configured minimum,
the loop classifies the time invalid and returns before any sampling or
reporting: the whole scheduler state (window buffers, write index,
populated count, last sample minute, last report hour) is unchanged and no
action fires, in both variants (in AgroPRO.cpp the cloud variables are also
untouched). -/
theorem C4_invalid_clock_skips_everything (inp : AgroPRO.TickInput)
    (inpA : Agro.TickInput) (s : State) (c : AgroPRO.Cloud) (ca : Agro.Cloud)
    (h : inp.epoch < MIN_EPOCH_TIME_SEC) (hA : inpA.epoch < MIN_EPOCH) :
    AgroPRO.loopStep inp s c =
      { state := s, cloud := c, sampled := false, reported := false, report := none,
        delivered := false } ∧
    (Agro.loopStep inpA s ca).state = s ∧
    (Agro.loopStep inpA s ca).sampled = false ∧
    (Agro.loopStep inpA s ca).reported = false ∧
    (Agro.loopStep inpA s ca).report = none := by
  rw [AgroPRO.loopStep_invalid_pro inp s c h, Agro.loopStep_invalid_agro inpA s ca hA]
  exact ⟨rfl, rfl, rfl, rfl, rfl⟩

/-- Closed instance of C4 at epoch 1000 (before 2000-01-01). -/
theorem C4_invalid_clock_skips_everything_witness :
    AgroPRO.loopStep ⟨1000, exSensors, true, true⟩ exState exCloudP =
      { state := exState, cloud := exCloudP, sampled := false, reported := false,
        report := none, delivered := false } :=
  (C4_invalid_clock_skips_everything ⟨1000, exSensors, true, true⟩
    ⟨true, exSensors, 1000, exSensors, true⟩ exState exCloudP exCloudA
    (by decide) (by decide)).1

/-- C10: in the Agro.cpp variant a tick on which the 5 s fast-read timer has
elapsed runs the live-mirroring pass (updating the cloud variables from the
fresh sensor read) even when the epoch is below the minimum threshold,
because the fast read precedes the clock-validity check; the aggregation
window and boundary state are untouched and neither sampling nor reporting
fires on such a tick. -/
theorem C10_fast_read_runs_with_invalid_clock (fs ss : SensorInput) (e : ℕ)
    (d : Bool) (s : State) (c : Agro.Cloud) (h : e < MIN_EPOCH) :
    (Agro.loopStep ⟨true, fs, e, ss, d⟩ s c).cloud = Agro.readSensorsFast fs c ∧
    (Agro.loopStep ⟨true, fs, e, ss, d⟩ s c).state = s ∧
    (Agro.loopStep ⟨true, fs, e, ss, d⟩ s c).sampled = false ∧
    (Agro.loopStep ⟨true, fs, e, ss, d⟩ s c).reported = false ∧
    (Agro.loopStep ⟨true, fs, e, ss, d⟩ s c).report = none := by
  rw [Agro.loopStep_invalid_agro ⟨true, fs, e, ss, d⟩ s c h]
  exact ⟨rfl, rfl, rfl, rfl, rfl⟩

/-- Closed instance of C10 at epoch 1000 with disconnected sensors. -/
theorem C10_fast_read_runs_with_invalid_clock_witness :
    (Agro.loopStep ⟨true, exDiscSensors, 1000, exSensors, true⟩ exState exCloudA).cloud =
      Agro.readSensorsFast exDiscSensors exCloudA :=
  (C10_fast_read_runs_with_invalid_clock exDiscSensors exSensors 1000 true exState
    exCloudA (by decide)).1

/-- C6: a temperature-probe reading equal to the disconnected-device
sentinel, the power-on-reset artifact 85, or the error value -127 is stored
in the window slot as the invalid marker, and any other reading is stored
unchanged; the slot never holds a raw sentinel value (shown on AgroPRO.cpp
`takeSample` and the shared filter, which Agro.cpp `loop()` applies
verbatim inside its sampling block). -/
theorem C6_probe_sentinels_filtered (inp : SensorInput) (s : State)
    (c : AgroPRO.Cloud) (i : Fin 4) (j : Fin 6) :
    (AgroPRO.takeSample (j : ℕ) inp s c).1.dsBuf i j = filterProbe (inp.ds i) ∧
    (filterProbe (inp.ds i) = none ↔
      (inp.ds i = DEVICE_DISCONNECTED_C ∨ inp.ds i = 85 ∨ inp.ds i = -127)) ∧
    (inp.ds i ≠ DEVICE_DISCONNECTED_C → inp.ds i ≠ 85 → inp.ds i ≠ -127 →
      filterProbe (inp.ds i) = some (inp.ds i)) := by
  refine ⟨by simp [AgroPRO.takeSample], ?_, ?_⟩
  · constructor
    · intro h
      by_contra hcon
      push_neg at hcon
      simp [filterProbe, hcon.1, hcon.2.1, hcon.2.2] at h
    · intro h
      simp [filterProbe, h]
  · intro h1 h2 h3
    simp [filterProbe, h1, h2, h3]

/-- C9: the window reset performed at window close (clear all buffers, zero
the write index and the populated count) leaves a state whose populated
count reads 0, whose write index is 0, and whose channel buffers hold the
invalid marker in every slot, so every channel snapshot is empty; Agro.cpp
`clearBuffers` and AgroPRO.cpp `clearSampleArrays` perform the same
clearing. -/
theorem C9_reset_roundtrip (s : State) (i : Fin 4) (j : Fin 6) :
    (windowReset s).validSamples = 0 ∧
    (windowReset s).bufIdx = 0 ∧
    (windowReset s).dsBuf i j = none ∧
    (windowReset s).dhtTBuf j = none ∧
    (windowReset s).dhtHBuf j = none ∧
    clearSampleArrays s = clearBuffers s ∧
    windowReset s = { clearSampleArrays s with bufIdx := 0, validSamples := 0 } ∧
    avg (windowOf ((windowReset s).dsBuf i)) (windowReset s).validSamples = none := by
  refine ⟨rfl, rfl, rfl, rfl, rfl, rfl, rfl, ?_⟩
  simp [windowReset, clearBuffers, avg, avgAux]

/-- C5 counterexample: in Agro.cpp `readSensorsFast`, a temperature-probe
channel whose read returns the disconnected sentinel has its live telemetry
value overwritten with the invalid marker (NaN), not held at the previous
valid value: starting from cloud value 20 for `temp1`, a disconnected read
leaves `temp1 = none`; and in AgroPRO.cpp `takeSample`, a NaN DHT read is
pushed to the live sink as NaN as well. -/
theorem C5_hold_last_value_counterexample :
    exCloudA.temp1 = some 20 ∧
    exDiscSensors.ds 0 = DEVICE_DISCONNECTED_C ∧
    (Agro.readSensorsFast exDiscSensors exCloudA).temp1 = none ∧
    exCloudP.dhtTemp = some 21 ∧
    (AgroPRO.takeSample 0 exDiscSensors exStateOne exCloudP).2.dhtTemp = none := by
  refine ⟨rfl, rfl, ?_, rfl, rfl⟩
  simp [Agro.readSensorsFast, exDiscSensors, filterProbe, DEVICE_DISCONNECTED_C]

/-- C5 as amended: only the DHT channels of the Agro.cpp variant hold the
previous live value when a read is invalid; the four probe channels in
Agro.cpp and every channel in AgroPRO.cpp push the (possibly invalid)
fresh value to the live sink, while the aggregation window records the
invalid marker for the same pass. -/
theorem C5_live_mirror_amended (inp : SensorInput) (c : Agro.Cloud) (idx : ℕ)
    (s : State) (cp : AgroPRO.Cloud) (j : Fin 6) :
    (Agro.readSensorsFast inp c).temp1 = filterProbe (inp.ds 0) ∧
    (Agro.readSensorsFast inp c).temp2 = filterProbe (inp.ds 1) ∧
    (Agro.readSensorsFast inp c).temp3 = filterProbe (inp.ds 2) ∧
    (Agro.readSensorsFast inp c).temp4 = filterProbe (inp.ds 3) ∧
    (inp.dhtT = none → (Agro.readSensorsFast inp c).dhtTemp = c.dhtTemp) ∧
    (inp.dhtH = none → (Agro.readSensorsFast inp c).dhtHumi = c.dhtHumi) ∧
    (∀ v : ℚ, inp.dhtT = some v → (Agro.readSensorsFast inp c).dhtTemp = some v) ∧
    (AgroPRO.takeSample idx inp s cp).2.sensor1 = filterProbe (inp.ds 0) ∧
    (AgroPRO.takeSample idx inp s cp).2.sensor2 = filterProbe (inp.ds 1) ∧
    (AgroPRO.takeSample idx inp s cp).2.sensor3 = filterProbe (inp.ds 2) ∧
    (AgroPRO.takeSample idx inp s cp).2.sensor4 = filterProbe (inp.ds 3) ∧
    (AgroPRO.takeSample idx inp s cp).2.dhtTemp = inp.dhtT ∧
    (AgroPRO.takeSample idx inp s cp).2.dhtHumi = inp.dhtH ∧
    ((j : ℕ) = idx → (AgroPRO.takeSample idx inp s cp).1.dhtTBuf j = inp.dhtT) := by
  refine ⟨rfl, rfl, rfl, rfl, ?_, ?_, ?_, rfl, rfl, rfl, rfl, rfl, rfl, ?_⟩
  · intro h; simp [Agro.readSensorsFast, h]
  · intro h; simp [Agro.readSensorsFast, h]
  · intro v h; simp [Agro.readSensorsFast, h]
  · intro h; simp [AgroPRO.takeSample, h]

/-- C7: whenever the report boundary fires (valid clock, minute 0, trigger
second, new hour, nonzero populated count), the scheduler afterwards resets
the window regardless of the delivery outcome: all slots invalid, write
index 0, populated count 0, last report hour set to the current hour; the
resulting state does not depend on WiFi state, delivery status or sensor
values, so a failed report is never retried.  Both variants reach the same
post state. -/
theorem C7_report_always_resets_window (e : ℕ) (s : State) (ss : SensorInput)
    (w d : Bool) (c : AgroPRO.Cloud) (fd : Bool) (fs : SensorInput) (ca : Agro.Cloud)
    (h1 : MIN_EPOCH_TIME_SEC ≤ e) (h2 : (localtime e).tm_min = 0)
    (h3 : (localtime e).tm_sec = REPORTING_TRIGGER_SECOND)
    (h4 : s.lastReportHr ≠ ((localtime e).tm_hour : ℤ)) (h5 : s.validSamples ≠ 0) :
    (AgroPRO.loopStep ⟨e, ss, w, d⟩ s c).reported = true ∧
    (AgroPRO.loopStep ⟨e, ss, w, d⟩ s c).state.validSamples = 0 ∧
    (AgroPRO.loopStep ⟨e, ss, w, d⟩ s c).state.bufIdx = 0 ∧
    (∀ i j, (AgroPRO.loopStep ⟨e, ss, w, d⟩ s c).state.dsBuf i j = none) ∧
    (∀ j, (AgroPRO.loopStep ⟨e, ss, w, d⟩ s c).state.dhtTBuf j = none) ∧
    (∀ j, (AgroPRO.loopStep ⟨e, ss, w, d⟩ s c).state.dhtHBuf j = none) ∧
    (AgroPRO.loopStep ⟨e, ss, w, d⟩ s c).state.lastReportHr =
      ((localtime e).tm_hour : ℤ) ∧
    (∀ (w' d' : Bool) (ss' : SensorInput),
      (AgroPRO.loopStep ⟨e, ss', w', d'⟩ s c).state =
        (AgroPRO.loopStep ⟨e, ss, w, d⟩ s c).state) ∧
    (Agro.loopStep ⟨fd, fs, e, ss, d⟩ s ca).reported = true ∧
    (Agro.loopStep ⟨fd, fs, e, ss, d⟩ s ca).state =
      (AgroPRO.loopStep ⟨e, ss, w, d⟩ s c).state ∧
    (∀ (d' : Bool) (ss' : SensorInput),
      (Agro.loopStep ⟨fd, fs, e, ss', d'⟩ s ca).state =
        (Agro.loopStep ⟨fd, fs, e, ss, d⟩ s ca).state) := by
  have hp := AgroPRO.loopStep_report_fires_pro ⟨e, ss, w, d⟩ s c h1 h2 h3 h4 h5
  have ha := Agro.loopStep_report_fires_agro ⟨fd, fs, e, ss, d⟩ s ca h1 h2 h3 h4 h5
  refine ⟨by rw [hp], by rw [hp], by rw [hp], by rw [hp]; exact fun i j => rfl,
    by rw [hp]; exact fun j => rfl, by rw [hp]; exact fun j => rfl, by rw [hp], ?_,
    by rw [ha], ?_, ?_⟩
  · intro w' d' ss'
    rw [hp, AgroPRO.loopStep_report_fires_pro ⟨e, ss', w', d'⟩ s c h1 h2 h3 h4 h5]
  · rw [hp, ha]
    simp [clearBuffers, clearSampleArrays]
  · intro d' ss'
    rw [ha, Agro.loopStep_report_fires_agro ⟨fd, fs, e, ss', d'⟩ s ca h1 h2 h3 h4 h5]

/-- Closed instance of C7 at the report boundary epoch 946684805
(2000-01-01 08:00:05 local time) with one populated sample. -/
theorem C7_report_always_resets_window_witness :
    (AgroPRO.loopStep ⟨946684805, exSensors, true, true⟩ exStateOne exCloudP).reported
      = true :=
  (C7_report_always_resets_window 946684805 exStateOne exSensors true true exCloudP
    true exSensors exCloudA (by decide) (by decide) (by decide) (by decide)
    (by decide)).1

/-- Single-tick ring-buffer invariant for AgroPRO.cpp `loop()`. -/
theorem AgroPRO.tick_ring_invariant_pro (inp : AgroPRO.TickInput) (s : State)
    (c : AgroPRO.Cloud) (h1 : s.bufIdx < SAMPLES_PER_HOUR)
    (h2 : s.validSamples ≤ SAMPLES_PER_HOUR) :
    (AgroPRO.loopStep inp s c).state.bufIdx < SAMPLES_PER_HOUR ∧
    (AgroPRO.loopStep inp s c).state.validSamples ≤ SAMPLES_PER_HOUR ∧
    ((AgroPRO.loopStep inp s c).sampled = true →
      (AgroPRO.loopStep inp s c).state.bufIdx = (s.bufIdx + 1) % SAMPLES_PER_HOUR ∧
      (AgroPRO.loopStep inp s c).state.validSamples =
        min (s.validSamples + 1) SAMPLES_PER_HOUR) ∧
    ((AgroPRO.loopStep inp s c).reported = false →
      s.validSamples ≤ (AgroPRO.loopStep inp s c).state.validSamples) ∧
    ((AgroPRO.loopStep inp s c).reported = true →
      (AgroPRO.loopStep inp s c).state.validSamples = 0 ∧
      (AgroPRO.loopStep inp s c).state.bufIdx = 0 ∧
      (∀ i j, (AgroPRO.loopStep inp s c).state.dsBuf i j = none) ∧
      (∀ j, (AgroPRO.loopStep inp s c).state.dhtTBuf j = none) ∧
      (∀ j, (AgroPRO.loopStep inp s c).state.dhtHBuf j = none)) := by
  by_cases hv : inp.epoch < MIN_EPOCH_TIME_SEC
  · rw [AgroPRO.loopStep_invalid_pro inp s c hv]
    exact ⟨h1, h2, by simp, fun _ => le_refl _, by simp⟩
  · have hv' : MIN_EPOCH_TIME_SEC ≤ inp.epoch := by omega
    by_cases hmin : (localtime inp.epoch).tm_min % SAMPLING_INTERVAL_MIN = 0
    · by_cases hsec : (localtime inp.epoch).tm_sec = 0
      · by_cases heq : s.lastSampleMin = ((localtime inp.epoch).tm_min : ℤ)
        · rw [AgroPRO.loopStep_sample_blocked_pro inp s c hv' hmin hsec heq]
          exact ⟨h1, h2, by simp, fun _ => le_refl _, by simp⟩
        · rw [AgroPRO.loopStep_sample_fires_pro inp s c hv' hmin hsec heq]
          refine ⟨?_, ?_, fun _ => ⟨rfl, rfl⟩, ?_, by simp⟩
          · show (s.bufIdx + 1) % SAMPLES_PER_HOUR < SAMPLES_PER_HOUR
            simp only [SAMPLES_PER_HOUR]
            omega
          · show min (s.validSamples + 1) SAMPLES_PER_HOUR ≤ SAMPLES_PER_HOUR
            exact min_le_right _ _
          · intro _
            show s.validSamples ≤ min (s.validSamples + 1) SAMPLES_PER_HOUR
            simp only [SAMPLES_PER_HOUR] at h2 ⊢
            omega
      · by_cases hb : (localtime inp.epoch).tm_min = 0 ∧
          (localtime inp.epoch).tm_sec = REPORTING_TRIGGER_SECOND
        · by_cases hne : s.lastReportHr = ((localtime inp.epoch).tm_hour : ℤ)
          · rw [AgroPRO.loopStep_report_blocked_hour_pro inp s c hv' hb.1 hb.2 hne]
            exact ⟨h1, h2, by simp, fun _ => le_refl _, by simp⟩
          · by_cases hvs : s.validSamples = 0
            · rw [AgroPRO.loopStep_report_skip_empty_pro inp s c hv' hb.1 hb.2 hvs]
              exact ⟨h1, h2, by simp, fun _ => le_refl _, by simp⟩
            · rw [AgroPRO.loopStep_report_fires_pro inp s c hv' hb.1 hb.2 hne hvs]
              refine ⟨?_, ?_, by simp, by simp, ?_⟩
              · show (0 : ℕ) < SAMPLES_PER_HOUR
                simp [SAMPLES_PER_HOUR]
              · show (0 : ℕ) ≤ SAMPLES_PER_HOUR
                simp
              · exact fun _ => ⟨rfl, rfl, fun i j => rfl, fun j => rfl, fun j => rfl⟩
        · rw [AgroPRO.loopStep_idle_pro inp s c hv' hmin hsec (not_and_or.mp hb)]
          exact ⟨h1, h2, by simp, fun _ => le_refl _, by simp⟩
    · rw [AgroPRO.loopStep_clear_pro inp s c hv' hmin]
      exact ⟨h1, h2, by simp, fun _ => le_refl _, by simp⟩

/-- Single-tick ring-buffer invariant for Agro.cpp `loop()`. -/
theorem Agro.tick_ring_invariant_agro (inp : Agro.TickInput) (s : State)
    (c : Agro.Cloud) (h1 : s.bufIdx < SAMPLES_HR) (h2 : s.validSamples ≤ SAMPLES_HR) :
    (Agro.loopStep inp s c).state.bufIdx < SAMPLES_HR ∧
    (Agro.loopStep inp s c).state.validSamples ≤ SAMPLES_HR ∧
    ((Agro.loopStep inp s c).sampled = true →
      (Agro.loopStep inp s c).state.bufIdx = (s.bufIdx + 1) % SAMPLES_HR ∧
      (Agro.loopStep inp s c).state.validSamples =
        min ((s.validSamples + 1) % 256) SAMPLES_HR) ∧
    ((Agro.loopStep inp s c).reported = false →
      s.validSamples ≤ (Agro.loopStep inp s c).state.validSamples) ∧
    ((Agro.loopStep inp s c).reported = true →
      (Agro.loopStep inp s c).state.validSamples = 0 ∧
      (Agro.loopStep inp s c).state.bufIdx = 0 ∧
      (∀ i j, (Agro.loopStep inp s c).state.dsBuf i j = none) ∧
      (∀ j, (Agro.loopStep inp s c).state.dhtTBuf j = none) ∧
      (∀ j, (Agro.loopStep inp s c).state.dhtHBuf j = none)) := by
  by_cases hv : inp.epoch < MIN_EPOCH
  · rw [Agro.loopStep_invalid_agro inp s c hv]
    exact ⟨h1, h2, by simp, fun _ => le_refl _, by simp⟩
  · have hv' : MIN_EPOCH ≤ inp.epoch := by omega
    by_cases hmin : (localtime inp.epoch).tm_min % SAMPLE_STEP = 0
    · by_cases hsec : (localtime inp.epoch).tm_sec = 0
      · by_cases heq : s.lastSampleMin = ((localtime inp.epoch).tm_min : ℤ)
        · rw [Agro.loopStep_sample_blocked_agro inp s c hv' hmin hsec heq]
          exact ⟨h1, h2, by simp, fun _ => le_refl _, by simp⟩
        · rw [Agro.loopStep_sample_fires_agro inp s c hv' hmin hsec heq]
          refine ⟨?_, ?_, fun _ => ⟨rfl, rfl⟩, ?_, by simp⟩
          · show (s.bufIdx + 1) % SAMPLES_HR < SAMPLES_HR
            simp only [SAMPLES_HR]
            omega
          · show min ((s.validSamples + 1) % 256) SAMPLES_HR ≤ SAMPLES_HR
            exact min_le_right _ _
          · intro _
            show s.validSamples ≤ min ((s.validSamples + 1) % 256) SAMPLES_HR
            simp only [SAMPLES_HR] at h2 ⊢
            omega
      · by_cases hb : (localtime inp.epoch).tm_min = 0 ∧
          (localtime inp.epoch).tm_sec = REPORT_SEC
        · by_cases hne : s.lastReportHr = ((localtime inp.epoch).tm_hour : ℤ)
          · rw [Agro.loopStep_report_blocked_hour_agro inp s c hv' hb.1 hb.2 hne]
            exact ⟨h1, h2, by simp, fun _ => le_refl _, by simp⟩
          · by_cases hvs : s.validSamples = 0
            · rw [Agro.loopStep_report_skip_empty_agro inp s c hv' hb.1 hb.2 hvs]
              exact ⟨h1, h2, by simp, fun _ => le_refl _, by simp⟩
            · rw [Agro.loopStep_report_fires_agro inp s c hv' hb.1 hb.2 hne hvs]
              refine ⟨?_, ?_, by simp, by simp, ?_⟩
              · show (0 : ℕ) < SAMPLES_HR
                simp [SAMPLES_HR]
              · show (0 : ℕ) ≤ SAMPLES_HR
                simp
              · exact fun _ => ⟨rfl, rfl, fun i j => rfl, fun j => rfl, fun j => rfl⟩
        · rw [Agro.loopStep_idle_agro inp s c hv' hmin hsec (not_and_or.mp hb)]
          exact ⟨h1, h2, by simp, fun _ => le_refl _, by simp⟩
    · rw [Agro.loopStep_clear_agro inp s c hv' hmin]
      exact ⟨h1, h2, by simp, fun _ => le_refl _, by simp⟩

/-- C8: every loop iteration preserves the ring-buffer invariant in both
variants: the write index stays below the capacity (it advances modulo the
capacity exactly when a sample fires), the populated count stays at most
the capacity (incremented with clamping at the capacity when a sample
fires), the populated count never decreases on a tick that does not report,
and it is reset to 0 together with the buffer contents and the write index
exactly at window close. -/
theorem C8_ring_buffer_invariant (inp : AgroPRO.TickInput) (inpA : Agro.TickInput)
    (s : State) (c : AgroPRO.Cloud) (ca : Agro.Cloud)
    (h1 : s.bufIdx < SAMPLES_HR) (h2 : s.validSamples ≤ SAMPLES_HR) :
    ((AgroPRO.loopStep inp s c).state.bufIdx < SAMPLES_PER_HOUR ∧
     (AgroPRO.loopStep inp s c).state.validSamples ≤ SAMPLES_PER_HOUR ∧
     ((AgroPRO.loopStep inp s c).sampled = true →
       (AgroPRO.loopStep inp s c).state.bufIdx = (s.bufIdx + 1) % SAMPLES_PER_HOUR ∧
       (AgroPRO.loopStep inp s c).state.validSamples =
         min (s.validSamples + 1) SAMPLES_PER_HOUR) ∧
     ((AgroPRO.loopStep inp s c).reported = false →
       s.validSamples ≤ (AgroPRO.loopStep inp s c).state.validSamples) ∧
     ((AgroPRO.loopStep inp s c).reported = true →
       (AgroPRO.loopStep inp s c).state.validSamples = 0 ∧
       (AgroPRO.loopStep inp s c).state.bufIdx = 0 ∧
       (∀ i j, (AgroPRO.loopStep inp s c).state.dsBuf i j = none) ∧
       (∀ j, (AgroPRO.loopStep inp s c).state.dhtTBuf j = none) ∧
       (∀ j, (AgroPRO.loopStep inp s c).state.dhtHBuf j = none))) ∧
    ((Agro.loopStep inpA s ca).state.bufIdx < SAMPLES_HR ∧
     (Agro.loopStep inpA s ca).state.validSamples ≤ SAMPLES_HR ∧
     ((Agro.loopStep inpA s ca).sampled = true →
       (Agro.loopStep inpA s ca).state.bufIdx = (s.bufIdx + 1) % SAMPLES_HR ∧
       (Agro.loopStep inpA s ca).state.validSamples =
         min ((s.validSamples + 1) % 256) SAMPLES_HR) ∧
     ((Agro.loopStep inpA s ca).reported = false →
       s.validSamples ≤ (Agro.loopStep inpA s ca).state.validSamples) ∧
     ((Agro.loopStep inpA s ca).reported = true →
       (Agro.loopStep inpA s ca).state.validSamples = 0 ∧
       (Agro.loopStep inpA s ca).state.bufIdx = 0 ∧
       (∀ i j, (Agro.loopStep inpA s ca).state.dsBuf i j = none) ∧
       (∀ j, (Agro.loopStep inpA s ca).state.dhtTBuf j = none) ∧
       (∀ j, (Agro.loopStep inpA s ca).state.dhtHBuf j = none))) :=
  ⟨AgroPRO.tick_ring_invariant_pro inp s c h1 h2, Agro.tick_ring_invariant_agro inpA s ca h1 h2⟩

/-- Closed instance of C8 on the empty window at an invalid-clock tick. -/
theorem C8_ring_buffer_invariant_witness :
    (AgroPRO.loopStep ⟨1000, exSensors, true, true⟩ exState exCloudP).state.bufIdx
      < SAMPLES_PER_HOUR :=
  (C8_ring_buffer_invariant ⟨1000, exSensors, true, true⟩
    ⟨true, exSensors, 1000, exSensors, true⟩ exState exCloudP exCloudA
    (by decide) (by decide)).1.1
